import Mathlib

/-!
Verification of the LTP KVM host library
(`testcases/kernel/kvm/include/kvm_host.h`).

The repository excerpt contains the header `kvm_host.h` of the KVM host
library: the constants, the data structure `struct tst_kvm_instance`, and
the documented contracts of `tst_kvm_validate_result`,
`tst_kvm_alloc_memory`, `tst_kvm_get_cpuid`, `tst_kvm_create_instance`,
`tst_kvm_run_instance` and `tst_kvm_destroy_instance`.  The implementation
file `kvm_host.c` is not part of the excerpt, so the bodies of these
operations are modelled from the specification (each such definition says
so in its doc comment).  The constants below are taken verbatim from the
header.
-/

/-- Header constant `VM_KERNEL_BASEADDR = 0x1000` (kvm_host.h line 42). -/
def VM_KERNEL_BASEADDR : Nat := 0x1000

/-- Header constant `VM_RESET_BASEADDR = 0xfffffff0` (kvm_host.h line 43). -/
def VM_RESET_BASEADDR : Nat := 0xfffffff0

/-- Header constant `VM_RESET_CODE_SIZE = 8` (kvm_host.h line 44); the header
declares `extern const unsigned char tst_kvm_reset_code[VM_RESET_CODE_SIZE]`. -/
def VM_RESET_CODE_SIZE : Nat := 8

/-- Header constant `MIN_FREE_RAM = 10 * 1024 * 1024` (kvm_host.h line 46). -/
def MIN_FREE_RAM : Nat := 10 * 1024 * 1024

/-- Header constant `DEFAULT_RAM_SIZE = 16 * 1024 * 1024` (kvm_host.h line 47). -/
def DEFAULT_RAM_SIZE : Nat := 16 * 1024 * 1024

/-- Length of the reset code array declared in the header:
`extern const unsigned char tst_kvm_reset_code[VM_RESET_CODE_SIZE]`
(kvm_host.h line 61).  The byte contents live in an architecture assembly
file outside the excerpt; only the length is fixed by the header. -/
def tst_kvm_reset_code_length : Nat := VM_RESET_CODE_SIZE

/-- Round `x` up to the next multiple of `p` (the C idiom
`p * ((x + p - 1) / p)`, LTP's `LTP_ALIGN`). -/
def roundUpTo (p x : Nat) : Nat := p * ((x + p - 1) / p)

theorem roundUpTo_dvd (p x : Nat) : p ∣ roundUpTo p x :=
  Dvd.intro _ rfl

theorem le_roundUpTo (p x : Nat) (hp : 0 < p) : x ≤ roundUpTo p x := by
  unfold roundUpTo
  rcases Nat.eq_zero_or_pos x with hx | hx
  · simp [hx]
  · have h1 : x + p - 1 = (x - 1) + p := by omega
    rw [h1, Nat.add_div_right _ hp, Nat.mul_add, Nat.mul_one]
    have hd := Nat.div_add_mod (x - 1) p
    have hm := Nat.mod_lt (x - 1) hp
    generalize p * ((x - 1) / p) = t at hd ⊢
    omega

theorem roundUpTo_lt (p x : Nat) (hp : 0 < p) : roundUpTo p x < x + p := by
  unfold roundUpTo
  have h := Nat.div_mul_le_self (x + p - 1) p
  rw [Nat.mul_comm]
  generalize (x + p - 1) / p * p = t at h ⊢
  omega

/-- One installed guest memory slot: slot id, guest-physical base address
and byte length (`struct kvm_userspace_memory_region` as used by the
library). -/
structure MemRegion where
  slot : Nat
  guest_base : Nat
  size : Nat
  deriving Repr, DecidableEq

/-- Two half-open ranges `[base1, base1+size1)` and `[base2, base2+size2)`
intersect. -/
def rangesOverlap (base1 size1 base2 size2 : Nat) : Bool :=
  decide (base1 < base2 + size2) && decide (base2 < base1 + size1)

theorem rangesOverlap_comm (b1 s1 b2 s2 : Nat) :
    rangesOverlap b1 s1 b2 s2 = rangesOverlap b2 s2 b1 s1 := by
  simp [rangesOverlap, Bool.and_comm]

/-- The guarded buffer returned by the allocator: a page-aligned backing
allocation of `backing_size` bytes at host address `backing_base`; the
returned pointer `ret` is the backing base, and the requested guest base
address lands at byte offset `offset = baseaddr % pagesize` inside it
(kvm_host.h lines 75-84). -/
structure GuardedBuffer where
  backing_base : Nat
  backing_size : Nat
  ret : Nat
  offset : Nat
  deriving Repr, DecidableEq

/-- A host address is writable when it lies inside the backing allocation;
the guard pages on either side are outside this range.  The header
documents that any extra space added at the beginning or end for page
alignment is writable (kvm_host.h lines 82-83). -/
def GuardedBuffer.writable (b : GuardedBuffer) (addr : Nat) : Bool :=
  decide (b.backing_base ≤ addr) && decide (addr < b.backing_base + b.backing_size)

/-- Host-side allocator state threaded through the allocation calls:
the memory slots already registered on the VM, the available free host
memory, the next unreserved host address, and a count of hypervisor
(ioctl) calls issued so far. -/
structure AllocState where
  regions : List MemRegion
  freeRam : Nat
  hostNext : Nat
  hypercalls : Nat
  deriving Repr, DecidableEq

/-- Outcome of an allocation request. -/
inductive AllocResult where
  | ok (buf : GuardedBuffer)
  | allocError
  | protocolViolation
  deriving Repr, DecidableEq

/-- Modelled from the spec: the body of `tst_kvm_alloc_memory` is in
`kvm_host.c`, which is not part of the excerpt; only its contract is
(kvm_host.h lines 75-86 and spec section 4.2).  The model: fail with an
allocation error, before any hypervisor call, when available free host
memory is below `MIN_FREE_RAM` plus the requested size; otherwise reserve
a page-aligned guarded host buffer covering `size` plus the alignment
padding implied by `baseaddr % pagesize`, and issue the memory-slot
registration ioctl, which rejects a duplicate slot id or a guest-physical
range overlapping a previously installed region. -/
def tst_kvm_alloc_memory (pagesize : Nat) (st : AllocState) (slot : Nat)
    (baseaddr size : Nat) : AllocState × AllocResult :=
  if st.freeRam < MIN_FREE_RAM + size then
    (st, .allocError)
  else
    let offset := baseaddr % pagesize
    let padded := roundUpTo pagesize (offset + size)
    let base := roundUpTo pagesize st.hostNext
    let st1 : AllocState := { st with hypercalls := st.hypercalls + 1 }
    if st.regions.any (fun r =>
        decide (r.slot = slot) || rangesOverlap r.guest_base r.size baseaddr size) then
      (st1, .protocolViolation)
    else
      ({ st1 with
           regions := st.regions ++ [⟨slot, baseaddr, size⟩],
           hostNext := base + padded + pagesize,
           freeRam := st.freeRam - padded },
       .ok ⟨base, padded, base, offset⟩)

/-- The generic reporting taxonomy of the surrounding test library:
pass, fail, broken (spec section 4.5). -/
inductive Verdict where
  | pass
  | fail
  | broken
  deriving Repr, DecidableEq

/-- Outcome of result validation: either a verdict from the reporting
taxonomy, or a broken-kind error raised for a protocol violation. -/
inductive ValidateOutcome where
  | verdict (v : Verdict)
  | brokenError
  deriving Repr, DecidableEq

/-- Modelled from the spec: the recognized enumeration of result codes is
defined in the shared header `kvm_common.h`, which is not part of the
excerpt (spec section 9 notes the full enumeration is defined by a shared
header not included).  The spec fixes only that the set is a fixed, finite
enumeration mapping onto the taxonomy pass, fail, broken; we use the LTP
taxonomy codes pass = 0, fail = 1, broken = 2. -/
def recognizedResultCodes : List Int := [0, 1, 2]

/-- Modelled from the spec: the body of `tst_kvm_validate_result` is in
`kvm_host.c`, which is not part of the excerpt; its contract is at
kvm_host.h lines 68-73 and spec section 4.5.  A recognized code maps to
its taxonomy verdict; any other value raises the broken-kind error
(the C code calls `tst_brk(TBROK, ...)`). -/
def tst_kvm_validate_result (value : Int) : ValidateOutcome :=
  if value = 0 then .verdict .pass
  else if value = 1 then .verdict .fail
  else if value = 2 then .verdict .broken
  else .brokenError

/-- A VM exit reason as demultiplexed by the execution engine (spec
section 4.4): a halt instruction, the architecture-dependent I/O
completion signal, a retryable interruption (e.g. an interrupted run
ioctl), or any other, unhandled exit carrying its raw reason code. -/
inductive ExitReason where
  | halt
  | ioSignal
  | interrupted
  | unhandled (code : Nat)
  deriving Repr, DecidableEq

/-- The fixed-layout Result Record the guest writes into guest memory
before halting: a result code and one auxiliary value (spec sections 3
and 6; kvm_host.h line 54 references `struct tst_kvm_result`, defined in
the missing `kvm_common.h`). -/
structure ResultRecord where
  result : Int
  value : Int
  deriving Repr, DecidableEq

/-- Outcome of running the instance: the Result Record read from guest
memory on the success path, or the broken/fatal Aborted state. -/
inductive RunOutcome where
  | completed (r : ResultRecord)
  | abortedBroken
  deriving Repr, DecidableEq

/-- Modelled from the spec: the body of `tst_kvm_run_instance` is in
`kvm_host.c`, which is not part of the excerpt; spec section 4.4 gives its
state machine.  A guest execution is the sequence of VM exits it produces,
each paired with the contents the Result Record has in guest memory at the
moment of that exit.  The engine re-enters the guest on a retryable exit,
reads the Result Record exactly at a completion exit (halt or I/O signal),
and transitions to the terminal Aborted state on any other exit without
consulting the record. -/
def tst_kvm_run_instance : List (ExitReason × ResultRecord) → RunOutcome
  | [] => .abortedBroken
  | (e, mem) :: rest =>
    match e with
    | .halt => .completed mem
    | .ioSignal => .completed mem
    | .interrupted => tst_kvm_run_instance rest
    | .unhandled _ => .abortedBroken

/-- Model of `struct tst_kvm_instance` (kvm_host.h lines 49-55): the
`vm_fd` and `vcpu_fd` handles and the `vcpu_info` and `ram` pointers are
optional (absent when the C field is -1 or NULL), extended with the list
of memory slots registered on the VM and the initial guest instruction
pointer of the vCPU. -/
structure TstKvmInstance where
  vm_fd : Option Nat
  vcpu_fd : Option Nat
  vcpu_info : Bool
  ram : Bool
  regions : List MemRegion
  rip : Nat
  deriving Repr, DecidableEq

/-- Modelled from the spec: the body of `tst_kvm_create_instance` is in
`kvm_host.c`, which is not part of the excerpt; its contract is at
kvm_host.h lines 97-103 and spec section 4.3.  The model: reject a RAM
size of zero or above 4 GiB minus one page; open the VM object, create one
vCPU and map its control block (three hypervisor calls); call the
allocator twice — slot 0 for the guest's executable payload at
`VM_KERNEL_BASEADDR`, slot 1 for the reset code at `VM_RESET_BASEADDR` —
and set the initial instruction pointer to the reset address.  If any step
fails, everything built so far is torn down and no instance is returned. -/
def tst_kvm_create_instance (pagesize freeRam ram_size : Nat) :
    Option TstKvmInstance :=
  if ram_size = 0 ∨ 4 * 1024 * 1024 * 1024 - pagesize < ram_size then none
  else
    let st0 : AllocState := ⟨[], freeRam, 0, 3⟩
    match tst_kvm_alloc_memory pagesize st0 0 VM_KERNEL_BASEADDR ram_size with
    | (st1, .ok _) =>
      match tst_kvm_alloc_memory pagesize st1 1 VM_RESET_BASEADDR
          VM_RESET_CODE_SIZE with
      | (st2, .ok _) =>
        some ⟨some 0, some 1, true, true, st2.regions, VM_RESET_BASEADDR⟩
      | _ => none
    | _ => none

/-- The four resource-release actions of teardown, in the order spec
section 4.3 prescribes for `destroy_instance`. -/
inductive ReleaseAction where
  | unmapVcpuInfo
  | freeGuestRam
  | closeVcpu
  | closeVm
  deriving Repr, DecidableEq

/-- Modelled from the spec: the body of `tst_kvm_destroy_instance` is in
`kvm_host.c`, which is not part of the excerpt; its contract is at
kvm_host.h lines 110-113 and spec section 4.3.  Teardown unmaps the vCPU
control block, releases the guest RAM buffers, destroys the vCPU, then the
VM object, in that order, skipping any resource that was never acquired;
it returns the cleared instance together with the trace of release actions
actually performed. -/
def tst_kvm_destroy_instance (inst : TstKvmInstance) :
    TstKvmInstance × List ReleaseAction :=
  let acts :=
    (if inst.vcpu_info then [ReleaseAction.unmapVcpuInfo] else []) ++
    (if inst.ram then [ReleaseAction.freeGuestRam] else []) ++
    (if inst.vcpu_fd.isSome then [ReleaseAction.closeVcpu] else []) ++
    (if inst.vm_fd.isSome then [ReleaseAction.closeVm] else [])
  (⟨none, none, false, false, [], inst.rip⟩, acts)

/-- Guest-physical ranges of the installed regions are pairwise
disjoint (spec section 3, Guest Memory Region invariant). -/
def pairwiseDisjoint (rs : List MemRegion) : Prop :=
  rs.Pairwise (fun a b =>
    rangesOverlap a.guest_base a.size b.guest_base b.size = false)

/-- C1: for every guest execution that (after any number of retryable
exits, during which the Result Record may hold anything) writes result
code `R` and auxiliary value `A` into the Result Record and then halts,
`tst_kvm_run_instance` returns exactly the pair `(R, A)`; the record
contents paired with the earlier exits never influence the outcome, i.e.
the Result Record is read from guest memory only at the completion
exit. -/
theorem run_instance_round_trip
    (pre : List (ExitReason × ResultRecord)) (R A : Int)
    (hpre : ∀ p ∈ pre, p.1 = ExitReason.interrupted) :
    tst_kvm_run_instance (pre ++ [(ExitReason.halt, ⟨R, A⟩)]) =
      RunOutcome.completed ⟨R, A⟩ := by
  induction pre with
  | nil => rfl
  | cons p rest ih =>
    obtain ⟨e, mem⟩ := p
    have he : e = ExitReason.interrupted := hpre (e, mem) (List.mem_cons_self _ _)
    subst he
    exact ih fun q hq => hpre q (List.mem_cons_of_mem _ hq)

/-- Witness for C1 at a concrete execution: one retryable exit with a
stale record, then a halt with record (42, 7). -/
theorem run_instance_round_trip_witness :
    tst_kvm_run_instance
        [(ExitReason.interrupted, ⟨5, 6⟩), (ExitReason.halt, ⟨42, 7⟩)] =
      RunOutcome.completed ⟨42, 7⟩ :=
  run_instance_round_trip [(ExitReason.interrupted, ⟨5, 6⟩)] 42 7 (by decide)

/-- C7: a retryable exit makes the engine re-enter the Running loop
without surfacing an error (the outcome is exactly that of the rest of
the execution), and an unhandled exit reason puts the engine in the
terminal Aborted state reported as broken, whatever the Result Record
holds — the record is never consulted there. -/
theorem run_instance_retry_and_abort
    (rest : List (ExitReason × ResultRecord)) (mem : ResultRecord) (c : Nat) :
    tst_kvm_run_instance ((ExitReason.interrupted, mem) :: rest) =
        tst_kvm_run_instance rest
  ∧ tst_kvm_run_instance ((ExitReason.unhandled c, mem) :: rest) =
      RunOutcome.abortedBroken :=
  ⟨rfl, rfl⟩

/-- C2: every value inside the recognized enumeration of result codes is
mapped to a verdict and never to the broken-kind error, and every value
outside the enumeration raises the broken-kind error, so no pass/fail
verdict is forwarded for it. -/
theorem validate_result_total (v : Int) :
    (v ∈ recognizedResultCodes →
      ∃ w, tst_kvm_validate_result v = ValidateOutcome.verdict w)
  ∧ (v ∉ recognizedResultCodes →
      tst_kvm_validate_result v = ValidateOutcome.brokenError) := by
  constructor
  · intro hv
    simp only [recognizedResultCodes, List.mem_cons, List.mem_singleton,
      List.not_mem_nil, or_false] at hv
    rcases hv with h | h | h <;> subst h <;> exact ⟨_, rfl⟩
  · intro hv
    simp only [recognizedResultCodes, List.mem_cons, List.mem_singleton,
      List.not_mem_nil, or_false, not_or] at hv
    obtain ⟨h0, h1, h2⟩ := hv
    simp [tst_kvm_validate_result, h0, h1, h2]

/-- Witness for C2 at concrete codes: the recognized pass code 0 yields a
verdict; the unrecognized code -1 raises the broken-kind error. -/
theorem validate_result_total_witness :
    (∃ w, tst_kvm_validate_result 0 = ValidateOutcome.verdict w)
  ∧ tst_kvm_validate_result (-1) = ValidateOutcome.brokenError :=
  ⟨(validate_result_total 0).1 (by decide),
   (validate_result_total (-1)).2 (by decide)⟩

/-- C5: when available free host memory is below `MIN_FREE_RAM` plus the
requested size, the allocator fails with an allocation error and returns
the state unchanged: the hypervisor-call counter has not moved (no ioctl
was issued, so no device or VM handle was touched) and no memory slot was
registered, even partially. -/
theorem alloc_memory_fail_fast (pagesize : Nat) (st : AllocState)
    (slot baseaddr size : Nat)
    (h : st.freeRam < MIN_FREE_RAM + size) :
    tst_kvm_alloc_memory pagesize st slot baseaddr size =
      (st, AllocResult.allocError) := by
  simp [tst_kvm_alloc_memory, h]

/-- Witness for C5 at a concrete request: zero free host memory. -/
theorem alloc_memory_fail_fast_witness :
    tst_kvm_alloc_memory 4096 ⟨[], 0, 0, 0⟩ 0 4096 1 =
      (⟨[], 0, 0, 0⟩, AllocResult.allocError) :=
  alloc_memory_fail_fast 4096 ⟨[], 0, 0, 0⟩ 0 4096 1 (by decide)

/-- C3: under the allocator's stated preconditions (positive requested
size up to 4 GiB minus one page, sufficient free host memory, no slot id
clash and no guest-range overlap with installed regions), the allocation
succeeds; the underlying backing allocation is page-aligned
(`backing_base mod pagesize = 0`), the returned pointer is the backing
base, and the requested base address lands at offset
`baseaddr % pagesize` inside the backing buffer, so the host address of
the requested base, minus the backing base, is `baseaddr mod pagesize`
modulo the page size. -/
theorem alloc_memory_aligned (pagesize : Nat) (st : AllocState)
    (slot baseaddr size : Nat) (hp : 0 < pagesize) (hs : 0 < size)
    (hub : size ≤ 4 * 1024 * 1024 * 1024 - pagesize)
    (hram : MIN_FREE_RAM + size ≤ st.freeRam)
    (hreg : st.regions.any (fun r =>
        decide (r.slot = slot) ||
        rangesOverlap r.guest_base r.size baseaddr size) = false) :
    tst_kvm_alloc_memory pagesize st slot baseaddr size =
      ({ regions := st.regions ++ [⟨slot, baseaddr, size⟩],
         freeRam := st.freeRam - roundUpTo pagesize (baseaddr % pagesize + size),
         hostNext := roundUpTo pagesize st.hostNext +
           roundUpTo pagesize (baseaddr % pagesize + size) + pagesize,
         hypercalls := st.hypercalls + 1 },
       AllocResult.ok ⟨roundUpTo pagesize st.hostNext,
         roundUpTo pagesize (baseaddr % pagesize + size),
         roundUpTo pagesize st.hostNext, baseaddr % pagesize⟩)
  ∧ roundUpTo pagesize st.hostNext % pagesize = 0
  ∧ (roundUpTo pagesize st.hostNext + baseaddr % pagesize -
      roundUpTo pagesize st.hostNext) % pagesize = baseaddr % pagesize := by
  have hlt : ¬ st.freeRam < MIN_FREE_RAM + size := by omega
  refine ⟨?_, ?_, ?_⟩
  · simp [tst_kvm_alloc_memory, hlt, hreg]
  · exact Nat.mul_mod_right _ _
  · rw [Nat.add_sub_cancel_left]
    exact Nat.mod_mod_of_dvd baseaddr (dvd_refl pagesize)

/-- Witness for C3 at the spec's concrete scenario 2: a reset-code region
requested at guest base 0xfffffff0 (= 4294967280) with size 8 on a fresh
state with 64 MiB free. -/
theorem alloc_memory_aligned_witness :
    tst_kvm_alloc_memory 4096 ⟨[], 67108864, 0, 0⟩ 0 4294967280 8 =
      ({ regions := [] ++ [⟨0, 4294967280, 8⟩],
         freeRam := 67108864 - roundUpTo 4096 (4294967280 % 4096 + 8),
         hostNext := roundUpTo 4096 0 +
           roundUpTo 4096 (4294967280 % 4096 + 8) + 4096,
         hypercalls := 0 + 1 },
       AllocResult.ok ⟨roundUpTo 4096 0, roundUpTo 4096 (4294967280 % 4096 + 8),
         roundUpTo 4096 0, 4294967280 % 4096⟩)
  ∧ roundUpTo 4096 0 % 4096 = 0
  ∧ (roundUpTo 4096 0 + 4294967280 % 4096 - roundUpTo 4096 0) % 4096 =
      4294967280 % 4096 :=
  alloc_memory_aligned 4096 ⟨[], 67108864, 0, 0⟩ 0 4294967280 8
    (by decide) (by decide) (by decide) (by decide) (by decide)

/-- Helper: a successful allocation appends exactly the requested region
to the installed-region list. -/
theorem alloc_memory_ok_regions (pagesize : Nat) (st : AllocState)
    (slot baseaddr size : Nat) (st' : AllocState) (b : GuardedBuffer)
    (h : tst_kvm_alloc_memory pagesize st slot baseaddr size =
      (st', AllocResult.ok b)) :
    st'.regions = st.regions ++ [⟨slot, baseaddr, size⟩] := by
  simp only [tst_kvm_alloc_memory] at h
  split at h
  · simp at h
  · split at h
    · simp at h
    · obtain ⟨h1, -⟩ := Prod.mk.injEq .. ▸ h
      rw [← h1]

/-- Helper: a successful allocation returns the buffer computed from the
request: page-aligned backing base, padded backing size, pointer at the
backing base, requested base at offset `baseaddr % pagesize`. -/
theorem alloc_memory_ok_buffer (pagesize : Nat) (st : AllocState)
    (slot baseaddr size : Nat) (st' : AllocState) (b : GuardedBuffer)
    (h : tst_kvm_alloc_memory pagesize st slot baseaddr size =
      (st', AllocResult.ok b)) :
    b = ⟨roundUpTo pagesize st.hostNext,
         roundUpTo pagesize (baseaddr % pagesize + size),
         roundUpTo pagesize st.hostNext, baseaddr % pagesize⟩ := by
  simp only [tst_kvm_alloc_memory] at h
  split at h
  · simp at h
  · split at h
    · simp at h
    · obtain ⟨-, h2⟩ := Prod.mk.injEq .. ▸ h
      exact (AllocResult.ok.injEq .. ▸ h2).symm

/-- C9: on every successful allocation the requested window
`[offset, offset + size)` fits inside the backing allocation, and every
byte of the backing allocation outside that window — the extra space
added at the beginning or at the end for page alignment — is writable,
so writes to the alignment padding do not fault. -/
theorem alloc_memory_padding_writable (pagesize : Nat) (st : AllocState)
    (slot baseaddr size : Nat) (st' : AllocState) (b : GuardedBuffer)
    (hp : 0 < pagesize)
    (h : tst_kvm_alloc_memory pagesize st slot baseaddr size =
      (st', AllocResult.ok b)) :
    b.offset + size ≤ b.backing_size
  ∧ ∀ a, a < b.backing_size → (a < b.offset ∨ b.offset + size ≤ a) →
      b.writable (b.backing_base + a) = true := by
  obtain rfl := alloc_memory_ok_buffer pagesize st slot baseaddr size st' b h
  refine ⟨le_roundUpTo _ _ hp, ?_⟩
  intro a ha hpad
  simp only [GuardedBuffer.writable, Bool.and_eq_true, decide_eq_true_eq] at ha hpad ⊢
  omega

/-- Witness for C9 at a concrete request (reset-code shaped: guest base
4294967280, size 8, page size 4096): the last byte of the backing page,
which lies in the end padding, is writable. -/
theorem alloc_memory_padding_writable_witness :
    (GuardedBuffer.mk 0 4096 0 4080).writable
      ((GuardedBuffer.mk 0 4096 0 4080).backing_base + 4090) = true :=
  (alloc_memory_padding_writable 4096 ⟨[], 67108864, 0, 0⟩ 1 4294967280 8
      ⟨[⟨1, 4294967280, 8⟩], 67104768, 8192, 1⟩ ⟨0, 4096, 0, 4080⟩
      (by decide) (by decide)).2 4090 (by decide) (by decide)

/-- C4: starting from a state whose installed regions are pairwise
disjoint in guest-physical space, any successful allocation preserves
pairwise disjointness; and a request whose guest-physical range overlaps
an installed region (with enough free host memory to reach the
registration ioctl) fails with the protocol-violation error and leaves
the previously registered regions intact. -/
theorem alloc_memory_disjoint (pagesize : Nat) (st : AllocState)
    (slot baseaddr size : Nat) (hdisj : pairwiseDisjoint st.regions) :
    (∀ st' b, tst_kvm_alloc_memory pagesize st slot baseaddr size =
        (st', AllocResult.ok b) → pairwiseDisjoint st'.regions)
  ∧ (MIN_FREE_RAM + size ≤ st.freeRam →
      ∀ r ∈ st.regions,
        rangesOverlap r.guest_base r.size baseaddr size = true →
        (tst_kvm_alloc_memory pagesize st slot baseaddr size).2 =
            AllocResult.protocolViolation
          ∧ (tst_kvm_alloc_memory pagesize st slot baseaddr size).1.regions =
            st.regions) := by
  constructor
  · intro st' b h
    have hreg := alloc_memory_ok_regions pagesize st slot baseaddr size st' b h
    have hany : st.regions.any (fun r =>
        decide (r.slot = slot) ||
        rangesOverlap r.guest_base r.size baseaddr size) = false := by
      by_contra hc
      rw [Bool.not_eq_false] at hc
      simp only [tst_kvm_alloc_memory] at h
      split at h
      · simp at h
      · simp [hc] at h
    rw [hreg, pairwiseDisjoint, List.pairwise_append]
    refine ⟨hdisj, by simp, ?_⟩
    intro a ha b' hb'
    simp only [List.mem_singleton] at hb'
    subst hb'
    have hfa : ¬ (decide (a.slot = slot) ||
        rangesOverlap a.guest_base a.size baseaddr size) = true := by
      rw [List.any_eq_false] at hany
      exact hany a ha
    simp only [Bool.or_eq_true, not_or, Bool.not_eq_true] at hfa
    exact hfa.2
  · intro hram r hr hov
    have hlt : ¬ st.freeRam < MIN_FREE_RAM + size := by omega
    have hany : st.regions.any (fun r =>
        decide (r.slot = slot) ||
        rangesOverlap r.guest_base r.size baseaddr size) = true := by
      rw [List.any_eq_true]
      exact ⟨r, hr, by simp [hov]⟩
    simp [tst_kvm_alloc_memory, hlt, hany]

/-- Witness for C4 at a concrete overlapping request: region
`[4096, 8192)` is installed and a second allocation asks for
`[6144, 10240)`; the registration is rejected and the installed region
list is unchanged. -/
theorem alloc_memory_disjoint_witness :
    (tst_kvm_alloc_memory 4096 ⟨[⟨0, 4096, 4096⟩], 67108864, 8192, 1⟩
        1 6144 4096).2 = AllocResult.protocolViolation
  ∧ (tst_kvm_alloc_memory 4096 ⟨[⟨0, 4096, 4096⟩], 67108864, 8192, 1⟩
        1 6144 4096).1.regions = [⟨0, 4096, 4096⟩] :=
  (alloc_memory_disjoint 4096 ⟨[⟨0, 4096, 4096⟩], 67108864, 8192, 1⟩
      1 6144 4096 (by simp [pairwiseDisjoint])).2 (by decide)
    ⟨0, 4096, 4096⟩ (by decide) (by decide)

/-- Helper: every successful `tst_kvm_create_instance` call produces the
instance with both handles open, the control block mapped, the RAM
allocated, exactly the two conventional memory regions installed, and the
instruction pointer at the reset address. -/
theorem create_instance_eq (pagesize freeRam ram_size : Nat)
    (inst : TstKvmInstance)
    (h : tst_kvm_create_instance pagesize freeRam ram_size = some inst) :
    inst = ⟨some 0, some 1, true, true,
            [⟨0, VM_KERNEL_BASEADDR, ram_size⟩,
             ⟨1, VM_RESET_BASEADDR, VM_RESET_CODE_SIZE⟩],
            VM_RESET_BASEADDR⟩ := by
  simp only [tst_kvm_create_instance] at h
  split at h
  · simp at h
  · rcases e1 : tst_kvm_alloc_memory pagesize ⟨[], freeRam, 0, 3⟩
        0 VM_KERNEL_BASEADDR ram_size with ⟨st1, r1⟩
    rw [e1] at h
    cases r1 with
    | ok buf1 =>
      dsimp only at h
      rcases e2 : tst_kvm_alloc_memory pagesize st1 1 VM_RESET_BASEADDR
          VM_RESET_CODE_SIZE with ⟨st2, r2⟩
      rw [e2] at h
      cases r2 with
      | ok buf2 =>
        simp only [Option.some.injEq] at h
        have hr1 := alloc_memory_ok_regions pagesize ⟨[], freeRam, 0, 3⟩
          0 VM_KERNEL_BASEADDR ram_size st1 buf1 e1
        have hr2 := alloc_memory_ok_regions pagesize st1
          1 VM_RESET_BASEADDR VM_RESET_CODE_SIZE st2 buf2 e2
        subst h
        rw [hr2, hr1]
        rfl
      | allocError => simp at h
      | protocolViolation => simp at h
    | allocError => simp at h
    | protocolViolation => simp at h

/-- C6: every successful `tst_kvm_create_instance` call (with the default
16 MiB RAM size in particular) registers exactly two memory regions:
slot id 0 holds the guest's executable payload at the fixed kernel base
address `VM_KERNEL_BASEADDR` and slot id 1 holds the reset/bootstrap code
at the fixed high reset address `VM_RESET_BASEADDR`; the initial vCPU
register state puts the instruction pointer at the reset address. -/
theorem create_instance_two_slots (pagesize freeRam ram_size : Nat)
    (inst : TstKvmInstance)
    (h : tst_kvm_create_instance pagesize freeRam ram_size = some inst) :
    inst.regions.length = 2
  ∧ inst.regions = [⟨0, VM_KERNEL_BASEADDR, ram_size⟩,
                    ⟨1, VM_RESET_BASEADDR, VM_RESET_CODE_SIZE⟩]
  ∧ inst.rip = VM_RESET_BASEADDR := by
  obtain rfl := create_instance_eq pagesize freeRam ram_size inst h
  exact ⟨rfl, rfl, rfl⟩

/-- Witness for C6 at the concrete default request: page size 4096,
64 MiB free host memory, the default 16 MiB RAM size. -/
theorem create_instance_two_slots_witness :
    (TstKvmInstance.mk (some 0) (some 1) true true
        [⟨0, VM_KERNEL_BASEADDR, DEFAULT_RAM_SIZE⟩,
         ⟨1, VM_RESET_BASEADDR, VM_RESET_CODE_SIZE⟩]
        VM_RESET_BASEADDR).regions.length = 2
  ∧ (TstKvmInstance.mk (some 0) (some 1) true true
        [⟨0, VM_KERNEL_BASEADDR, DEFAULT_RAM_SIZE⟩,
         ⟨1, VM_RESET_BASEADDR, VM_RESET_CODE_SIZE⟩]
        VM_RESET_BASEADDR).regions =
      [⟨0, VM_KERNEL_BASEADDR, DEFAULT_RAM_SIZE⟩,
       ⟨1, VM_RESET_BASEADDR, VM_RESET_CODE_SIZE⟩]
  ∧ (TstKvmInstance.mk (some 0) (some 1) true true
        [⟨0, VM_KERNEL_BASEADDR, DEFAULT_RAM_SIZE⟩,
         ⟨1, VM_RESET_BASEADDR, VM_RESET_CODE_SIZE⟩]
        VM_RESET_BASEADDR).rip = VM_RESET_BASEADDR :=
  create_instance_two_slots 4096 67108864 DEFAULT_RAM_SIZE
    (TstKvmInstance.mk (some 0) (some 1) true true
        [⟨0, VM_KERNEL_BASEADDR, DEFAULT_RAM_SIZE⟩,
         ⟨1, VM_RESET_BASEADDR, VM_RESET_CODE_SIZE⟩]
        VM_RESET_BASEADDR)
    (by decide)

/-- C10: in every successful `tst_kvm_create_instance` call the payload
region is installed at guest-physical address 0x1000 and the reset-code
region installed at guest-physical address 0xfffffff0 is exactly 8 bytes
long — the declared length of `tst_kvm_reset_code`. -/
theorem create_instance_fixed_addresses (pagesize freeRam ram_size : Nat)
    (inst : TstKvmInstance)
    (h : tst_kvm_create_instance pagesize freeRam ram_size = some inst) :
    inst.regions = [⟨0, 0x1000, ram_size⟩, ⟨1, 0xfffffff0, 8⟩]
  ∧ tst_kvm_reset_code_length = 8 := by
  obtain rfl := create_instance_eq pagesize freeRam ram_size inst h
  exact ⟨rfl, rfl⟩

/-- Witness for C10 at the concrete default request. -/
theorem create_instance_fixed_addresses_witness :
    (TstKvmInstance.mk (some 0) (some 1) true true
        [⟨0, 0x1000, DEFAULT_RAM_SIZE⟩, ⟨1, 0xfffffff0, 8⟩]
        VM_RESET_BASEADDR).regions =
      [⟨0, 0x1000, DEFAULT_RAM_SIZE⟩, ⟨1, 0xfffffff0, 8⟩]
  ∧ tst_kvm_reset_code_length = 8 :=
  create_instance_fixed_addresses 4096 67108864 DEFAULT_RAM_SIZE
    (TstKvmInstance.mk (some 0) (some 1) true true
        [⟨0, 0x1000, DEFAULT_RAM_SIZE⟩, ⟨1, 0xfffffff0, 8⟩]
        VM_RESET_BASEADDR)
    (by decide)

/-- Helper: an optional singleton release step is a sublist of the
corresponding mandatory step. -/
theorem destroy_release_order_aux {α : Type} (c : Prop) [Decidable c] (x : α) :
    (if c then [x] else []).Sublist [x] := by
  split
  · exact List.Sublist.refl _
  · exact List.nil_sublist _

/-- C8: `tst_kvm_destroy_instance` performs its release actions as a
subsequence of the canonical order (unmap the vCPU control block, release
the guest RAM buffers, destroy the vCPU, destroy the VM object); it
releases exactly the resources that were acquired, skipping each absent
one — so it is safe on a partially initialized instance; and it is
idempotent: a second call on the already-destroyed instance performs no
action and leaves the same released state. -/
theorem destroy_instance_spec (inst : TstKvmInstance) :
    (tst_kvm_destroy_instance inst).2.Sublist
        [ReleaseAction.unmapVcpuInfo, ReleaseAction.freeGuestRam,
         ReleaseAction.closeVcpu, ReleaseAction.closeVm]
  ∧ (ReleaseAction.unmapVcpuInfo ∈ (tst_kvm_destroy_instance inst).2 ↔
      inst.vcpu_info = true)
  ∧ (ReleaseAction.freeGuestRam ∈ (tst_kvm_destroy_instance inst).2 ↔
      inst.ram = true)
  ∧ (ReleaseAction.closeVcpu ∈ (tst_kvm_destroy_instance inst).2 ↔
      inst.vcpu_fd.isSome = true)
  ∧ (ReleaseAction.closeVm ∈ (tst_kvm_destroy_instance inst).2 ↔
      inst.vm_fd.isSome = true)
  ∧ tst_kvm_destroy_instance (tst_kvm_destroy_instance inst).1 =
      ((tst_kvm_destroy_instance inst).1, []) := by
  constructor
  · simp only [tst_kvm_destroy_instance]
    exact List.Sublist.append
      (List.Sublist.append
        (List.Sublist.append
          (destroy_release_order_aux (inst.vcpu_info = true)
            ReleaseAction.unmapVcpuInfo)
          (destroy_release_order_aux (inst.ram = true)
            ReleaseAction.freeGuestRam))
        (destroy_release_order_aux (inst.vcpu_fd.isSome = true)
          ReleaseAction.closeVcpu))
      (destroy_release_order_aux (inst.vm_fd.isSome = true)
        ReleaseAction.closeVm)
  · obtain ⟨vm, vcpu, info, ram, regs, rip⟩ := inst
    cases vm <;> cases vcpu <;> cases info <;> cases ram <;>
      simp [tst_kvm_destroy_instance]
